import Mathlib

/-!
Verification of the tft-gamma-cal test-pattern renderer (`src/main.js`).

The repository holds two variants of `paintTestPattern`:
* a 9-swatch variant (width 200, height 300) painting nine horizontal bands
  keyed to named gray levels `gray03 .. gray87`, with a solid middle third
  flanked by dithered thirds;
* a 7-point fractional-halving variant (width 134, height 240) keyed to
  `gray1_2 .. gray1_128`, with a solid right half (`x > w/2`) and a dithered
  left half, plus a preset store (`loadCurve` / `saveCustomCurve`).

JavaScript compares `y < h * (k/N)` with floating-point thresholds; the
embedding uses the exact rational reading `N * y < h * k`, which agrees with
the source at the concrete sizes it uses (the thresholds are never within a
rounding error of an integer there).  Slider values are natural numbers;
`Uint8ClampedArray` stores `min v 255` for a nonnegative integer `v`.
-/

namespace TftGammaCal

/-- The per-band luma triple the row loop of `paintTestPattern` keeps in the
mutable variables `solid`, `dither_light`, `dither_dark`. -/
structure BandVals where
  solid : Nat
  dither_light : Nat
  dither_dark : Nat
deriving Repr, DecidableEq

/-- Curve for the 9-swatch variant: slider values `gray03 .. gray87`. -/
structure Curve9 where
  gray03 : Nat
  gray06 : Nat
  gray12 : Nat
  gray25 : Nat
  gray37 : Nat
  gray50 : Nat
  gray62 : Nat
  gray75 : Nat
  gray87 : Nat
deriving Repr, DecidableEq

/-- Curve for the 7-point variant: slider values `gray1_2 .. gray1_128`. -/
structure Curve7 where
  gray1_2 : Nat
  gray1_4 : Nat
  gray1_8 : Nat
  gray1_16 : Nat
  gray1_32 : Nat
  gray1_64 : Nat
  gray1_128 : Nat
deriving Repr, DecidableEq

/-- Band values chosen by the `if (y < h * (k/9))` chain of the 9-swatch
`paintTestPattern` (src/main.js lines 45-81), with the float comparison read
exactly as `9 * y < h * k`.  Every branch assigns all three variables, so the
triple for a row does not depend on earlier rows. -/
def bandVals9 (c : Curve9) (h y : Nat) : BandVals :=
  if 9 * y < h * 1 then ⟨c.gray03, c.gray06, 0⟩
  else if 9 * y < h * 2 then ⟨c.gray06, c.gray12, 0⟩
  else if 9 * y < h * 3 then ⟨c.gray12, c.gray25, 0⟩
  else if 9 * y < h * 4 then ⟨c.gray25, c.gray50, 0⟩
  else if 9 * y < h * 5 then ⟨c.gray37, c.gray50, c.gray25⟩
  else if 9 * y < h * 6 then ⟨c.gray50, 255, 0⟩
  else if 9 * y < h * 7 then ⟨c.gray62, c.gray75, c.gray50⟩
  else if 9 * y < h * 8 then ⟨c.gray75, 255, c.gray50⟩
  else ⟨c.gray87, 255, c.gray75⟩

/-- Band index (0..8) determined by the same `if` chain as `bandVals9`. -/
def bandIndex9 (h y : Nat) : Nat :=
  if 9 * y < h * 1 then 0
  else if 9 * y < h * 2 then 1
  else if 9 * y < h * 3 then 2
  else if 9 * y < h * 4 then 3
  else if 9 * y < h * 5 then 4
  else if 9 * y < h * 6 then 5
  else if 9 * y < h * 7 then 6
  else if 9 * y < h * 8 then 7
  else 8

/-- Band values chosen by the `if (y < h * (k/7))` chain of the 7-point
`paintTestPattern` (src/main.js lines 156-177).  `dither_dark` is initialised
to 0 before the row loop and never reassigned, so it is 0 in every band. -/
def bandVals7 (c : Curve7) (h y : Nat) : BandVals :=
  if 7 * y < h * 1 then ⟨c.gray1_2, 255, 0⟩
  else if 7 * y < h * 2 then ⟨c.gray1_4, c.gray1_2, 0⟩
  else if 7 * y < h * 3 then ⟨c.gray1_8, c.gray1_4, 0⟩
  else if 7 * y < h * 4 then ⟨c.gray1_16, c.gray1_8, 0⟩
  else if 7 * y < h * 5 then ⟨c.gray1_32, c.gray1_16, 0⟩
  else if 7 * y < h * 6 then ⟨c.gray1_64, c.gray1_32, 0⟩
  else ⟨c.gray1_128, c.gray1_64, 0⟩

/-- Band index (0..6) determined by the same `if` chain as `bandVals7`. -/
def bandIndex7 (h y : Nat) : Nat :=
  if 7 * y < h * 1 then 0
  else if 7 * y < h * 2 then 1
  else if 7 * y < h * 3 then 2
  else if 7 * y < h * 4 then 3
  else if 7 * y < h * 5 then 4
  else if 7 * y < h * 6 then 5
  else 6

/-- Per-pixel luma of the 9-swatch pixel loop (src/main.js lines 82-87):
`dither = (x ^ y) & 1`, `luma = dither ? dither_dark : dither_light`,
overridden to `solid` when `w/3 < x && x < w*(2/3)` (read exactly as
`w < 3*x && 3*x < 2*w`). -/
def lumaAt9 (c : Curve9) (w h x y : Nat) : Nat :=
  let bv := bandVals9 c h y
  let dither := (x ^^^ y) &&& 1
  let l := if dither ≠ 0 then bv.dither_dark else bv.dither_light
  if w < 3 * x ∧ 3 * x < 2 * w then bv.solid else l

/-- Per-pixel luma of the 7-point pixel loop (src/main.js lines 178-183):
`dither = (x ^ y) & 1`, `luma = dither ? dither_dark : dither_light`,
overridden to `solid` when `x > w/2` (read exactly as `2*x > w`). -/
def lumaAt7 (c : Curve7) (w h x y : Nat) : Nat :=
  let bv := bandVals7 c h y
  let dither := (x ^^^ y) &&& 1
  let l := if dither ≠ 0 then bv.dither_dark else bv.dither_light
  if 2 * x > w then bv.solid else l

/-- The four RGBA bytes written for one pixel: `luma` into R, G and B and 255
into alpha; `Uint8ClampedArray` clamps a nonnegative integer to `min _ 255`. -/
def pixelRGBA (luma : Nat) : List Nat :=
  [min luma 255, min luma 255, min luma 255, 255]

/-- Row-major RGBA buffer produced by the nested `y`/`x` loops, for a
per-pixel luma function `g`. -/
def renderGrid (g : Nat → Nat → Nat) (w h : Nat) : List Nat :=
  (List.range h).flatMap fun y => (List.range w).flatMap fun x => pixelRGBA (g x y)

/-- The full pixel buffer of the 9-swatch `paintTestPattern` (the source
instantiates `w = 200`, `h = 300`). -/
def render9 (c : Curve9) (w h : Nat) : List Nat :=
  renderGrid (fun x y => lumaAt9 c w h x y) w h

/-- The full pixel buffer of the 7-point `paintTestPattern` (the source
instantiates `w = 134`, `h = 240`). -/
def render7 (c : Curve7) (w h : Nat) : List Nat :=
  renderGrid (fun x y => lumaAt7 c w h x y) w h

/-! ### Generic lemmas about buffers built from uniform chunks -/

lemma pixelRGBA_length (luma : Nat) : (pixelRGBA luma).length = 4 := rfl

lemma length_flatMap_const {α β : Type} (l : List α) (f : α → List β) (k : Nat)
    (hf : ∀ a ∈ l, (f a).length = k) : (l.flatMap f).length = k * l.length := by
  induction l with
  | nil => simp
  | cons a t ih =>
      rw [List.flatMap_cons, List.length_append, hf a (List.mem_cons_self a t),
        ih fun b hb => hf b (List.mem_cons_of_mem a hb), List.length_cons]
      ring

lemma getD_flatMap_const {α β : Type} (l : List α) (f : α → List β) (k : Nat)
    (hf : ∀ a ∈ l, (f a).length = k) (i j : Nat) (hj : j < k) (d : β)
    (hi : i < l.length) :
    (l.flatMap f).getD (k * i + j) d = (f l[i]).getD j d := by
  induction l generalizing i with
  | nil => simp at hi
  | cons a t ih =>
      rw [List.flatMap_cons]
      cases i with
      | zero =>
          rw [Nat.mul_zero, Nat.zero_add, List.getElem_cons_zero]
          exact List.getD_append _ _ _ _
            (by rw [hf a (List.mem_cons_self a t)]; exact hj)
      | succ n =>
          have hlen : (f a).length = k := hf a (List.mem_cons_self a t)
          have hsplit : k * (n + 1) + j = (f a).length + (k * n + j) := by
            rw [hlen]; ring
          rw [hsplit, List.getD_append_right _ _ _ _ (Nat.le_add_right _ _),
            Nat.add_sub_cancel_left, List.getElem_cons_succ]
          exact ih (fun b hb => hf b (List.mem_cons_of_mem a hb)) n
            (Nat.lt_of_succ_lt_succ hi)

lemma renderGrid_row_length (g : Nat → Nat → Nat) (w y : Nat) :
    ((List.range w).flatMap fun x => pixelRGBA (g x y)).length = 4 * w := by
  rw [length_flatMap_const _ _ 4 fun x _ => pixelRGBA_length _, List.length_range]

lemma renderGrid_length (g : Nat → Nat → Nat) (w h : Nat) :
    (renderGrid g w h).length = w * h * 4 := by
  rw [renderGrid,
    length_flatMap_const _ _ (4 * w) fun y _ => renderGrid_row_length g w y,
    List.length_range]
  ring

lemma renderGrid_getD (g : Nat → Nat → Nat) (w h x y ch : Nat)
    (hx : x < w) (hy : y < h) (hch : ch < 4) :
    (renderGrid g w h).getD (4 * (y * w + x) + ch) 0 =
      (pixelRGBA (g x y)).getD ch 0 := by
  have hidx : 4 * (y * w + x) + ch = (4 * w) * y + (4 * x + ch) := by ring
  have hy2 : y < (List.range h).length := by rw [List.length_range]; exact hy
  have hj : 4 * x + ch < 4 * w := by omega
  rw [renderGrid, hidx,
    getD_flatMap_const _ _ (4 * w) (fun a _ => renderGrid_row_length g w a)
      y (4 * x + ch) hj 0 hy2,
    List.getElem_range]
  have hx2 : x < (List.range w).length := by rw [List.length_range]; exact hx
  rw [getD_flatMap_const _ _ 4 (fun a _ => pixelRGBA_length _) x ch hch 0 hx2,
    List.getElem_range]

/-! ### Band tables indexed by band number

Derived views of the two `if` chains: the value triple as a function of the
band index.  The bridge lemmas below prove them equal to the chains. -/

/-- The 9-swatch band triples as a function of band index 0..8. -/
def bandTable9 (c : Curve9) : Nat → BandVals
  | 0 => ⟨c.gray03, c.gray06, 0⟩
  | 1 => ⟨c.gray06, c.gray12, 0⟩
  | 2 => ⟨c.gray12, c.gray25, 0⟩
  | 3 => ⟨c.gray25, c.gray50, 0⟩
  | 4 => ⟨c.gray37, c.gray50, c.gray25⟩
  | 5 => ⟨c.gray50, 255, 0⟩
  | 6 => ⟨c.gray62, c.gray75, c.gray50⟩
  | 7 => ⟨c.gray75, 255, c.gray50⟩
  | _ => ⟨c.gray87, 255, c.gray75⟩

/-- The 7-point band triples as a function of band index 0..6. -/
def bandTable7 (c : Curve7) : Nat → BandVals
  | 0 => ⟨c.gray1_2, 255, 0⟩
  | 1 => ⟨c.gray1_4, c.gray1_2, 0⟩
  | 2 => ⟨c.gray1_8, c.gray1_4, 0⟩
  | 3 => ⟨c.gray1_16, c.gray1_8, 0⟩
  | 4 => ⟨c.gray1_32, c.gray1_16, 0⟩
  | 5 => ⟨c.gray1_64, c.gray1_32, 0⟩
  | _ => ⟨c.gray1_128, c.gray1_64, 0⟩

lemma bandVals9_eq_table (c : Curve9) (h y : Nat) :
    bandVals9 c h y = bandTable9 c (bandIndex9 h y) := by
  unfold bandVals9 bandIndex9
  split_ifs <;> rfl

lemma bandVals7_eq_table (c : Curve7) (h y : Nat) :
    bandVals7 c h y = bandTable7 c (bandIndex7 h y) := by
  unfold bandVals7 bandIndex7
  split_ifs <;> rfl

lemma bandIndex9_lt (h y : Nat) : bandIndex9 h y < 9 := by
  unfold bandIndex9; split_ifs <;> omega

lemma bandIndex7_lt (h y : Nat) : bandIndex7 h y < 7 := by
  unfold bandIndex7; split_ifs <;> omega

lemma bandIndex9_spec (h y : Nat) (hy : y < h) :
    h * bandIndex9 h y ≤ 9 * y ∧ 9 * y < h * (bandIndex9 h y + 1) := by
  unfold bandIndex9; split_ifs <;> omega

lemma bandIndex7_spec (h y : Nat) (hy : y < h) :
    h * bandIndex7 h y ≤ 7 * y ∧ 7 * y < h * (bandIndex7 h y + 1) := by
  unfold bandIndex7; split_ifs <;> omega

/-- Two half-open proportional bands containing the same scaled row
coincide. -/
lemma band_unique {h t k j : Nat} (h1 : h * k ≤ t) (h2 : t < h * (k + 1))
    (h3 : h * j ≤ t) (h4 : t < h * (j + 1)) : k = j := by
  have b1 : k < j + 1 := Nat.lt_of_mul_lt_mul_left (lt_of_le_of_lt h1 h4)
  have b2 : j < k + 1 := Nat.lt_of_mul_lt_mul_left (lt_of_le_of_lt h3 h2)
  omega

lemma bandIndex9_eq_of (h k y : Nat) (hk : k < 9)
    (h1 : h * k ≤ 9 * y) (h2 : 9 * y < h * (k + 1)) : bandIndex9 h y = k := by
  interval_cases k <;> (unfold bandIndex9; split_ifs <;> omega)

lemma bandIndex7_eq_of (h k y : Nat) (hk : k < 7)
    (h1 : h * k ≤ 7 * y) (h2 : 7 * y < h * (k + 1)) : bandIndex7 h y = k := by
  interval_cases k <;> (unfold bandIndex7; split_ifs <;> omega)

lemma bandVals9_eq_of (c : Curve9) (h k y : Nat) (hk : k < 9)
    (h1 : h * k ≤ 9 * y) (h2 : 9 * y < h * (k + 1)) :
    bandVals9 c h y = bandTable9 c k := by
  rw [bandVals9_eq_table, bandIndex9_eq_of h k y hk h1 h2]

lemma bandVals7_eq_of (c : Curve7) (h k y : Nat) (hk : k < 7)
    (h1 : h * k ≤ 7 * y) (h2 : 7 * y < h * (k + 1)) :
    bandVals7 c h y = bandTable7 c k := by
  rw [bandVals7_eq_table, bandIndex7_eq_of h k y hk h1 h2]

/-! ### UI state machine of the 7-point variant

Global DOM state (the seven sliders, the custom-curve slot, the preset
selector, the canvas and the status line) is passed explicitly. -/

structure St where
  g1_2 : Nat
  g1_4 : Nat
  g1_8 : Nat
  g1_16 : Nat
  g1_32 : Nat
  g1_64 : Nat
  g1_128 : Nat
  customCurve : Option (List Nat)
  curveSel : String
  canvas : List Nat
  status : String
deriving Repr

/-- The curve currently shown by the seven sliders. -/
def sliderCurve (s : St) : Curve7 :=
  ⟨s.g1_2, s.g1_4, s.g1_8, s.g1_16, s.g1_32, s.g1_64, s.g1_128⟩

/-- `saveCustomCurve` (src/main.js lines 199-202): snapshots the six sliders
`GRAY1_2 .. GRAY1_64` into the custom slot. -/
def saveCustomCurve (s : St) : St :=
  { s with
    customCurve := some [s.g1_2, s.g1_4, s.g1_8, s.g1_16, s.g1_32, s.g1_64] }

/-- The 7-point `paintTestPattern` (src/main.js lines 134-196) as a state
transformer: renders the slider curve into the canvas, updates the status
line, and when the change came from a slider, selects "custom" and snapshots
the sliders. -/
def paintTestPattern (changedBySlider : Bool) (s : St) : St :=
  let s1 := { s with
    canvas := render7 (sliderCurve s) 134 240,
    status := "curve: " ++ String.intercalate " "
      (List.map toString
        [s.g1_2, s.g1_4, s.g1_8, s.g1_16, s.g1_32, s.g1_64, s.g1_128]) }
  if changedBySlider then saveCustomCurve { s1 with curveSel := "custom" } else s1

/-- `loadCurve` (src/main.js lines 205-239).  The `switch` on `name` is an
equality chain; an unknown name leaves `curve` undefined, so the later
`curve[0]` access throws a TypeError before any slider write, any snapshot
write or any repaint — modelled as `Except.error ()` carrying no new state.
For `"custom"` an uninitialised slot is first filled from the current six
slider values (`saveCustomCurve`).  Only sliders `GRAY1_2 .. GRAY1_64` are
written; `GRAY1_128` is not. -/
def loadCurve (name : String) (s : St) : Except Unit St :=
  let resolved : Option (List Nat × Option (List Nat)) :=
    if name = "sRGB-ish" then
      some ([171, 127, 97, 74, 56, 41, 30], s.customCurve)
    else if name = "2010s-LED" then
      some ([181, 129, 93, 68, 50, 36, 28], s.customCurve)
    else if name = "2020s-P3" then
      some ([185, 135, 97, 71, 51, 36, 27], s.customCurve)
    else if name = "custom" then
      match s.customCurve with
      | none =>
          let cc := [s.g1_2, s.g1_4, s.g1_8, s.g1_16, s.g1_32, s.g1_64]
          some (cc, some cc)
      | some cc => some (cc, some cc)
    else none
  match resolved with
  | none => Except.error ()
  | some (curve, cc) =>
      Except.ok (paintTestPattern false
        { s with
          customCurve := cc,
          g1_2 := curve.getD 0 0,
          g1_4 := curve.getD 1 0,
          g1_8 := curve.getD 2 0,
          g1_16 := curve.getD 3 0,
          g1_32 := curve.getD 4 0,
          g1_64 := curve.getD 5 0 })

/-- `loadCurve` as observed through the event handler: a thrown TypeError
propagates out and every global is left as it was. -/
def runLoadCurve (name : String) (s : St) : St :=
  match loadCurve name s with
  | Except.ok t => t
  | Except.error _ => s

/-- The preset names accepted by the `switch` in `loadCurve`. -/
def presetNames : List String := ["sRGB-ish", "2010s-LED", "2020s-P3", "custom"]

/-- One preset-store interaction: a `loadCurve` call or a `saveCustomCurve`
call. -/
inductive StoreOp where
  | load : String → StoreOp
  | save : StoreOp

def runOp : StoreOp → St → St
  | StoreOp.load name, s => runLoadCurve name s
  | StoreOp.save, s => saveCustomCurve s

def runOps : List StoreOp → St → St
  | [], s => s
  | op :: rest, s => runOps rest (runOp op s)

/-! ### Sample inputs used in witnesses and counterexamples -/

/-- A 9-swatch curve with distinct nonzero control points. -/
def c9sample : Curve9 := ⟨10, 20, 30, 40, 50, 60, 70, 80, 90⟩

/-- The "sRGB-ish" preset of `loadCurve`. -/
def sRGBishCurve : Curve7 := ⟨171, 127, 97, 74, 56, 41, 30⟩

/-! ### Byte-level access to the rendered buffers -/

lemma render9_byte (c : Curve9) (w h x y ch : Nat)
    (hx : x < w) (hy : y < h) (hch : ch < 4) :
    (render9 c w h).getD (4 * (y * w + x) + ch) 0 =
      (pixelRGBA (lumaAt9 c w h x y)).getD ch 0 :=
  renderGrid_getD _ w h x y ch hx hy hch

lemma render7_byte (c : Curve7) (w h x y ch : Nat)
    (hx : x < w) (hy : y < h) (hch : ch < 4) :
    (render7 c w h).getD (4 * (y * w + x) + ch) 0 =
      (pixelRGBA (lumaAt7 c w h x y)).getD ch 0 :=
  renderGrid_getD _ w h x y ch hx hy hch

/-- C5: for every curve and positive width and height, the rendered pixel
buffer has exactly `width*height*4` bytes, every pixel's alpha byte equals
255, and every pixel's R, G and B bytes are equal to each other (both
layouts). -/
theorem c5_buffer_shape (c9 : Curve9) (c7 : Curve7) (w h : Nat)
    (hw : 0 < w) (hh : 0 < h) :
    (render9 c9 w h).length = w * h * 4 ∧
    (render7 c7 w h).length = w * h * 4 ∧
    (∀ p, p < w * h →
      ((render9 c9 w h).getD (4 * p + 3) 0 = 255 ∧
       (render9 c9 w h).getD (4 * p + 0) 0 = (render9 c9 w h).getD (4 * p + 1) 0 ∧
       (render9 c9 w h).getD (4 * p + 1) 0 = (render9 c9 w h).getD (4 * p + 2) 0) ∧
      ((render7 c7 w h).getD (4 * p + 3) 0 = 255 ∧
       (render7 c7 w h).getD (4 * p + 0) 0 = (render7 c7 w h).getD (4 * p + 1) 0 ∧
       (render7 c7 w h).getD (4 * p + 1) 0 = (render7 c7 w h).getD (4 * p + 2) 0)) := by
  refine ⟨renderGrid_length _ w h, renderGrid_length _ w h, ?_⟩
  intro p hp
  have hx : p % w < w := Nat.mod_lt _ hw
  have hy : p / w < h := Nat.div_lt_of_lt_mul (by omega)
  have hsum : (p / w) * w + p % w = p := by
    rw [Nat.mul_comm]; exact Nat.div_add_mod p w
  have e9 : ∀ ch, ch < 4 → (render9 c9 w h).getD (4 * p + ch) 0 =
      (pixelRGBA (lumaAt9 c9 w h (p % w) (p / w))).getD ch 0 := by
    intro ch hch
    have hb := render9_byte c9 w h (p % w) (p / w) ch hx hy hch
    rwa [hsum] at hb
  have e7 : ∀ ch, ch < 4 → (render7 c7 w h).getD (4 * p + ch) 0 =
      (pixelRGBA (lumaAt7 c7 w h (p % w) (p / w))).getD ch 0 := by
    intro ch hch
    have hb := render7_byte c7 w h (p % w) (p / w) ch hx hy hch
    rwa [hsum] at hb
  refine ⟨⟨?_, ?_, ?_⟩, ⟨?_, ?_, ?_⟩⟩
  · rw [e9 3 (by omega)]; rfl
  · rw [e9 0 (by omega), e9 1 (by omega)]; rfl
  · rw [e9 1 (by omega), e9 2 (by omega)]; rfl
  · rw [e7 3 (by omega)]; rfl
  · rw [e7 0 (by omega), e7 1 (by omega)]; rfl
  · rw [e7 1 (by omega), e7 2 (by omega)]; rfl

/-- Witness for C5 at curve samples and width 2, height 3. -/
theorem c5_buffer_shape_witness :
    0 < 2 ∧ 0 < 3 ∧
    ((render9 c9sample 2 3).length = 2 * 3 * 4 ∧
     (render7 sRGBishCurve 2 3).length = 2 * 3 * 4 ∧
     (∀ p, p < 2 * 3 →
       ((render9 c9sample 2 3).getD (4 * p + 3) 0 = 255 ∧
        (render9 c9sample 2 3).getD (4 * p + 0) 0 =
          (render9 c9sample 2 3).getD (4 * p + 1) 0 ∧
        (render9 c9sample 2 3).getD (4 * p + 1) 0 =
          (render9 c9sample 2 3).getD (4 * p + 2) 0) ∧
       ((render7 sRGBishCurve 2 3).getD (4 * p + 3) 0 = 255 ∧
        (render7 sRGBishCurve 2 3).getD (4 * p + 0) 0 =
          (render7 sRGBishCurve 2 3).getD (4 * p + 1) 0 ∧
        (render7 sRGBishCurve 2 3).getD (4 * p + 1) 0 =
          (render7 sRGBishCurve 2 3).getD (4 * p + 2) 0))) :=
  ⟨by decide, by decide,
    c5_buffer_shape c9sample sRGBishCurve 2 3 (by decide) (by decide)⟩

/-- C6: for every height `h > 0`, the proportional thresholds `h * (k/N)`
(scaled to `h * k` against `N * y`) are monotone in `k`, and every row
`y < h` lies in exactly one band: `bandIndex7`/`bandIndex9` give a band below
the band count whose half-open interval contains the row, and any band
containing the row is that one. -/
theorem c6_band_partition (h y : Nat) (hh : 0 < h) (hy : y < h) :
    (∀ k1 k2 : Nat, k1 ≤ k2 → h * k1 ≤ h * k2) ∧
    (bandIndex7 h y < 7 ∧
      h * bandIndex7 h y ≤ 7 * y ∧ 7 * y < h * (bandIndex7 h y + 1) ∧
      ∀ k, k < 7 → h * k ≤ 7 * y → 7 * y < h * (k + 1) → k = bandIndex7 h y) ∧
    (bandIndex9 h y < 9 ∧
      h * bandIndex9 h y ≤ 9 * y ∧ 9 * y < h * (bandIndex9 h y + 1) ∧
      ∀ k, k < 9 → h * k ≤ 9 * y → 9 * y < h * (k + 1) → k = bandIndex9 h y) := by
  refine ⟨fun k1 k2 hk => Nat.mul_le_mul (Nat.le_refl h) hk,
    ⟨bandIndex7_lt h y, (bandIndex7_spec h y hy).1, (bandIndex7_spec h y hy).2,
      fun k hk h1 h2 =>
        band_unique h1 h2 (bandIndex7_spec h y hy).1 (bandIndex7_spec h y hy).2⟩,
    ⟨bandIndex9_lt h y, (bandIndex9_spec h y hy).1, (bandIndex9_spec h y hy).2,
      fun k hk h1 h2 =>
        band_unique h1 h2 (bandIndex9_spec h y hy).1 (bandIndex9_spec h y hy).2⟩⟩

/-- Witness for C6 at height 240, row 100. -/
theorem c6_band_partition_witness :
    0 < 240 ∧ 100 < 240 ∧
    ((∀ k1 k2 : Nat, k1 ≤ k2 → 240 * k1 ≤ 240 * k2) ∧
     (bandIndex7 240 100 < 7 ∧
       240 * bandIndex7 240 100 ≤ 7 * 100 ∧
       7 * 100 < 240 * (bandIndex7 240 100 + 1) ∧
       ∀ k, k < 7 → 240 * k ≤ 7 * 100 → 7 * 100 < 240 * (k + 1) →
         k = bandIndex7 240 100) ∧
     (bandIndex9 240 100 < 9 ∧
       240 * bandIndex9 240 100 ≤ 9 * 100 ∧
       9 * 100 < 240 * (bandIndex9 240 100 + 1) ∧
       ∀ k, k < 9 → 240 * k ≤ 9 * 100 → 9 * 100 < 240 * (k + 1) →
         k = bandIndex9 240 100)) :=
  ⟨by decide, by decide, c6_band_partition 240 100 (by decide) (by decide)⟩

/-- C2: in the 7-point layout, for every band `k` (rows with
`h*k ≤ 7*y < h*(k+1)`), `dither_dark` is 0, and `dither_light` is 255 for the
first band and the previous band's `solid` value otherwise. -/
theorem c2_dither_light_prev_solid (c : Curve7) (h k y : Nat) (hk : k < 7)
    (h1 : h * k ≤ 7 * y) (h2 : 7 * y < h * (k + 1)) :
    (bandVals7 c h y).dither_dark = 0 ∧
    (k = 0 → (bandVals7 c h y).dither_light = 255) ∧
    (∀ kp yp, k = kp + 1 → h * kp ≤ 7 * yp → 7 * yp < h * (kp + 1) →
      (bandVals7 c h y).dither_light = (bandVals7 c h yp).solid) := by
  rw [bandVals7_eq_of c h k y hk h1 h2]
  refine ⟨?_, ?_, ?_⟩
  · interval_cases k <;> rfl
  · intro hk0; subst hk0; rfl
  · intro kp yp hkp hp1 hp2
    have hkp7 : kp < 7 := by omega
    rw [bandVals7_eq_of c h kp yp hkp7 hp1 hp2]
    subst hkp
    have hkp6 : kp < 6 := by omega
    interval_cases kp <;> rfl

/-- Witness for C2: band 1 of the sRGB-ish curve at height 240 (row 40),
previous band 0 witnessed by row 10. -/
theorem c2_dither_light_prev_solid_witness :
    (1 < 7 ∧ 240 * 1 ≤ 7 * 40 ∧ 7 * 40 < 240 * (1 + 1)) ∧
    ((bandVals7 sRGBishCurve 240 40).dither_dark = 0 ∧
     (1 = 0 → (bandVals7 sRGBishCurve 240 40).dither_light = 255) ∧
     (∀ kp yp, 1 = kp + 1 → 240 * kp ≤ 7 * yp → 7 * yp < 240 * (kp + 1) →
       (bandVals7 sRGBishCurve 240 40).dither_light =
         (bandVals7 sRGBishCurve 240 yp).solid)) :=
  ⟨⟨by decide, by decide, by decide⟩,
    c2_dither_light_prev_solid sRGBishCurve 240 1 40 (by decide) (by decide)
      (by decide)⟩

/-- Refutation of C3 as stated: in the 9-swatch layout the band containing
row 140 (band 4) and the band containing row 210 (band 6) of a 300-row image
both have non-zero `dither_dark` for a curve with all control points
non-zero, so "exactly one band has a non-zero dither_dark" is false; band 6's
value is `gray50`, not `gray25`. -/
theorem c3_counterexample :
    bandIndex9 300 140 = 4 ∧ bandIndex9 300 210 = 6 ∧
    (bandVals9 c9sample 300 140).dither_dark = c9sample.gray25 ∧
    (bandVals9 c9sample 300 210).dither_dark = c9sample.gray50 ∧
    c9sample.gray25 ≠ 0 ∧ c9sample.gray50 ≠ 0 ∧
    c9sample.gray50 ≠ c9sample.gray25 := by decide

/-- C3 (amended): in the 9-swatch layout, band 4 has `dither_dark = gray25`,
bands 6 and 7 have `dither_dark = gray50`, band 8 has `dither_dark = gray75`,
and bands 0-3 and 5 have `dither_dark = 0`. -/
theorem c3_dither_dark_by_band (c : Curve9) (h k y : Nat) (hk : k < 9)
    (h1 : h * k ≤ 9 * y) (h2 : 9 * y < h * (k + 1)) :
    (bandVals9 c h y).dither_dark =
      (if k = 4 then c.gray25
       else if k = 6 ∨ k = 7 then c.gray50
       else if k = 8 then c.gray75
       else 0) := by
  rw [bandVals9_eq_of c h k y hk h1 h2]
  interval_cases k <;> rfl

/-- Witness for the amended C3: band 6 of a 300-row image, row 210. -/
theorem c3_dither_dark_by_band_witness :
    (6 < 9 ∧ 300 * 6 ≤ 9 * 210 ∧ 9 * 210 < 300 * (6 + 1)) ∧
    (bandVals9 c9sample 300 210).dither_dark =
      (if 6 = 4 then c9sample.gray25
       else if 6 = 6 ∨ 6 = 7 then c9sample.gray50
       else if 6 = 8 then c9sample.gray75
       else 0) :=
  ⟨⟨by decide, by decide, by decide⟩,
    c3_dither_dark_by_band c9sample 300 6 210 (by decide) (by decide)
      (by decide)⟩

/-- All 9-swatch control points within the slider range 0..255. -/
def Curve9.le255 (c : Curve9) : Prop :=
  c.gray03 ≤ 255 ∧ c.gray06 ≤ 255 ∧ c.gray12 ≤ 255 ∧ c.gray25 ≤ 255 ∧
  c.gray37 ≤ 255 ∧ c.gray50 ≤ 255 ∧ c.gray62 ≤ 255 ∧ c.gray75 ≤ 255 ∧
  c.gray87 ≤ 255

/-- All 7-point control points within the slider range 0..255. -/
def Curve7.le255 (c : Curve7) : Prop :=
  c.gray1_2 ≤ 255 ∧ c.gray1_4 ≤ 255 ∧ c.gray1_8 ≤ 255 ∧ c.gray1_16 ≤ 255 ∧
  c.gray1_32 ≤ 255 ∧ c.gray1_64 ≤ 255 ∧ c.gray1_128 ≤ 255

lemma bandVals9_le255 (c : Curve9) (h y : Nat) (hb : c.le255) :
    (bandVals9 c h y).solid ≤ 255 ∧ (bandVals9 c h y).dither_light ≤ 255 ∧
    (bandVals9 c h y).dither_dark ≤ 255 := by
  obtain ⟨b1, b2, b3, b4, b5, b6, b7, b8, b9⟩ := hb
  have hk := bandIndex9_lt h y
  rw [bandVals9_eq_table]
  revert hk
  generalize bandIndex9 h y = k
  intro hk
  interval_cases k <;> simp only [bandTable9] <;> omega

lemma bandVals7_le255 (c : Curve7) (h y : Nat) (hb : c.le255) :
    (bandVals7 c h y).solid ≤ 255 ∧ (bandVals7 c h y).dither_light ≤ 255 ∧
    (bandVals7 c h y).dither_dark ≤ 255 := by
  obtain ⟨b1, b2, b3, b4, b5, b6, b7⟩ := hb
  have hk := bandIndex7_lt h y
  rw [bandVals7_eq_table]
  revert hk
  generalize bandIndex7 h y = k
  intro hk
  interval_cases k <;> simp only [bandTable7] <;> omega

lemma lumaAt9_le255 (c : Curve9) (w h x y : Nat) (hb : c.le255) :
    lumaAt9 c w h x y ≤ 255 := by
  obtain ⟨hs, hl, hd⟩ := bandVals9_le255 c h y hb
  simp only [lumaAt9]
  split_ifs <;> omega

lemma lumaAt7_le255 (c : Curve7) (w h x y : Nat) (hb : c.le255) :
    lumaAt7 c w h x y ≤ 255 := by
  obtain ⟨hs, hl, hd⟩ := bandVals7_le255 c h y hb
  simp only [lumaAt7]
  split_ifs <;> omega

/-- C1: every rendered pixel's luma byte is selected by the dither bit
`(x ^ y) & 1` — `dither_dark` when the bit is 1, `dither_light` when it is
0 — overridden to the band's `solid` value in the solid region (strictly
between `w/3` and `2*w/3` in the 9-swatch layout, `x > w/2` in the 7-point
layout); hence every pixel's luma is one of the band's three values. -/
theorem c1_pixel_luma (c9 : Curve9) (c7 : Curve7) (w h x y : Nat)
    (hx : x < w) (hy : y < h) (hb9 : c9.le255) (hb7 : c7.le255) :
    ((render9 c9 w h).getD (4 * (y * w + x) + 0) 0 =
       (if w < 3 * x ∧ 3 * x < 2 * w then (bandVals9 c9 h y).solid
        else if (x ^^^ y) &&& 1 ≠ 0 then (bandVals9 c9 h y).dither_dark
        else (bandVals9 c9 h y).dither_light) ∧
     (render9 c9 w h).getD (4 * (y * w + x) + 0) 0 ∈
       [(bandVals9 c9 h y).solid, (bandVals9 c9 h y).dither_light,
        (bandVals9 c9 h y).dither_dark]) ∧
    ((render7 c7 w h).getD (4 * (y * w + x) + 0) 0 =
       (if 2 * x > w then (bandVals7 c7 h y).solid
        else if (x ^^^ y) &&& 1 ≠ 0 then (bandVals7 c7 h y).dither_dark
        else (bandVals7 c7 h y).dither_light) ∧
     (render7 c7 w h).getD (4 * (y * w + x) + 0) 0 ∈
       [(bandVals7 c7 h y).solid, (bandVals7 c7 h y).dither_light,
        (bandVals7 c7 h y).dither_dark]) := by
  have e9 : (render9 c9 w h).getD (4 * (y * w + x) + 0) 0 =
      lumaAt9 c9 w h x y := by
    rw [render9_byte c9 w h x y 0 hx hy (by omega)]
    exact Nat.min_eq_left (lumaAt9_le255 c9 w h x y hb9)
  have e7 : (render7 c7 w h).getD (4 * (y * w + x) + 0) 0 =
      lumaAt7 c7 w h x y := by
    rw [render7_byte c7 w h x y 0 hx hy (by omega)]
    exact Nat.min_eq_left (lumaAt7_le255 c7 w h x y hb7)
  have f9 : lumaAt9 c9 w h x y =
      (if w < 3 * x ∧ 3 * x < 2 * w then (bandVals9 c9 h y).solid
       else if (x ^^^ y) &&& 1 ≠ 0 then (bandVals9 c9 h y).dither_dark
       else (bandVals9 c9 h y).dither_light) := rfl
  have f7 : lumaAt7 c7 w h x y =
      (if 2 * x > w then (bandVals7 c7 h y).solid
       else if (x ^^^ y) &&& 1 ≠ 0 then (bandVals7 c7 h y).dither_dark
       else (bandVals7 c7 h y).dither_light) := rfl
  refine ⟨⟨e9.trans f9, ?_⟩, ⟨e7.trans f7, ?_⟩⟩
  · rw [e9, f9]; split_ifs <;> simp
  · rw [e7, f7]; split_ifs <;> simp

/-- Witness for C1 at width 6, height 9, pixel (4, 2). -/
theorem c1_pixel_luma_witness :
    (4 < 6 ∧ 2 < 9 ∧ Curve9.le255 c9sample ∧ Curve7.le255 sRGBishCurve) ∧
    (((render9 c9sample 6 9).getD (4 * (2 * 6 + 4) + 0) 0 =
        (if 6 < 3 * 4 ∧ 3 * 4 < 2 * 6 then (bandVals9 c9sample 9 2).solid
         else if (4 ^^^ 2) &&& 1 ≠ 0 then (bandVals9 c9sample 9 2).dither_dark
         else (bandVals9 c9sample 9 2).dither_light) ∧
      (render9 c9sample 6 9).getD (4 * (2 * 6 + 4) + 0) 0 ∈
        [(bandVals9 c9sample 9 2).solid, (bandVals9 c9sample 9 2).dither_light,
         (bandVals9 c9sample 9 2).dither_dark]) ∧
     ((render7 sRGBishCurve 6 9).getD (4 * (2 * 6 + 4) + 0) 0 =
        (if 2 * 4 > 6 then (bandVals7 sRGBishCurve 9 2).solid
         else if (4 ^^^ 2) &&& 1 ≠ 0 then (bandVals7 sRGBishCurve 9 2).dither_dark
         else (bandVals7 sRGBishCurve 9 2).dither_light) ∧
      (render7 sRGBishCurve 6 9).getD (4 * (2 * 6 + 4) + 0) 0 ∈
        [(bandVals7 sRGBishCurve 9 2).solid,
         (bandVals7 sRGBishCurve 9 2).dither_light,
         (bandVals7 sRGBishCurve 9 2).dither_dark])) :=
  ⟨⟨by decide, by decide, by unfold Curve9.le255; decide,
      by unfold Curve7.le255; decide⟩,
    c1_pixel_luma c9sample sRGBishCurve 6 9 4 2 (by decide) (by decide)
      (by unfold Curve9.le255; decide) (by unfold Curve7.le255; decide)⟩

/-- Refutation of C4 as stated: pixel (45, 0) of the 134x240 fractional-
halving render of the sRGB-ish curve lies strictly inside the middle third of
the width (`134/3 < 45 < 2*134/3`), yet its luma byte is 0, not 171 — the
7-point layout's solid region is the right half `x > w/2`, not the middle
third. -/
theorem c4_counterexample :
    (134 < 3 * 45 ∧ 3 * 45 < 2 * 134) ∧
    (render7 sRGBishCurve 134 240).getD (4 * (0 * 134 + 45) + 0) 0 = 0 ∧
    (0 : Nat) ≠ 171 := by
  refine ⟨by decide, ?_, by decide⟩
  decide

/-- C4 (amended): for the fractional-halving layout with width 134, height
240 and the sRGB-ish curve [171,127,97,74,56,41,30]: in row 0 the dithered
(left, `x ≤ w/2`) pixels alternate between 0 and 255 by pixel parity and the
solid-region (`x > w/2`) pixels have luma 171; in row 239 the dithered pixels
alternate between 0 and 41 and the solid-region pixels have luma 30. -/
theorem c4_scenario (x : Nat) (hx : x < 134) :
    (2 * x > 134 →
      (render7 sRGBishCurve 134 240).getD (4 * (0 * 134 + x) + 0) 0 = 171 ∧
      (render7 sRGBishCurve 134 240).getD (4 * (239 * 134 + x) + 0) 0 = 30) ∧
    (¬ 2 * x > 134 →
      (render7 sRGBishCurve 134 240).getD (4 * (0 * 134 + x) + 0) 0 =
        (if x % 2 = 1 then 0 else 255) ∧
      (render7 sRGBishCurve 134 240).getD (4 * (239 * 134 + x) + 0) 0 =
        (if x % 2 = 1 then 41 else 0)) := by
  have hbnd : Curve7.le255 sRGBishCurve := by unfold Curve7.le255; decide
  have hb0 : bandVals7 sRGBishCurve 240 0 = ⟨171, 255, 0⟩ := rfl
  have hb239 : bandVals7 sRGBishCurve 240 239 = ⟨30, 41, 0⟩ := rfl
  have e0 : (render7 sRGBishCurve 134 240).getD (4 * (0 * 134 + x) + 0) 0 =
      lumaAt7 sRGBishCurve 134 240 x 0 := by
    rw [render7_byte sRGBishCurve 134 240 x 0 0 hx (by omega) (by omega)]
    exact Nat.min_eq_left (lumaAt7_le255 sRGBishCurve 134 240 x 0 hbnd)
  have e239 : (render7 sRGBishCurve 134 240).getD (4 * (239 * 134 + x) + 0) 0 =
      lumaAt7 sRGBishCurve 134 240 x 239 := by
    rw [render7_byte sRGBishCurve 134 240 x 239 0 hx (by omega) (by omega)]
    exact Nat.min_eq_left (lumaAt7_le255 sRGBishCurve 134 240 x 239 hbnd)
  have hx0 : (x ^^^ 0) &&& 1 = x % 2 := by
    rw [Nat.xor_zero, Nat.and_one_is_mod]
  have hx239 : (x ^^^ 239) &&& 1 = (x % 2) ^^^ 1 := by
    rw [Nat.and_xor_distrib_right, Nat.and_one_is_mod, Nat.and_one_is_mod]
  constructor
  · intro hgt
    rw [e0, e239]
    constructor <;> simp [lumaAt7, hb0, hb239, hgt]
  · intro hle
    rw [e0, e239]
    rcases Nat.mod_two_eq_zero_or_one x with h2 | h2 <;>
      simp [lumaAt7, hb0, hb239, hle, hx0, hx239, h2]

/-- Witness for the amended C4 at dithered column 10 and solid column 100. -/
theorem c4_scenario_witness :
    (10 < 134 ∧ 100 < 134) ∧
    (¬ 2 * 10 > 134 ∧
      (render7 sRGBishCurve 134 240).getD (4 * (0 * 134 + 10) + 0) 0 =
        (if 10 % 2 = 1 then 0 else 255) ∧
      (render7 sRGBishCurve 134 240).getD (4 * (239 * 134 + 10) + 0) 0 =
        (if 10 % 2 = 1 then 41 else 0)) ∧
    (2 * 100 > 134 ∧
      (render7 sRGBishCurve 134 240).getD (4 * (0 * 134 + 100) + 0) 0 = 171 ∧
      (render7 sRGBishCurve 134 240).getD (4 * (239 * 134 + 100) + 0) 0 = 30) :=
  ⟨⟨by decide, by decide⟩,
    ⟨by decide, (c4_scenario 10 (by decide)).2 (by decide)⟩,
    ⟨by decide, (c4_scenario 100 (by decide)).1 (by decide)⟩⟩

/-! ### Sample states for the state-machine claims -/

/-- A state with the custom slot untouched. -/
def stFresh : St := ⟨200, 180, 160, 140, 120, 100, 80, none, "sel0", [], "st0"⟩

/-- A state whose custom slot has already been initialised. -/
def stCustomSet : St := ⟨9, 9, 9, 9, 9, 9, 9, some [1, 2, 3, 4, 5, 6], "custom", [], "st"⟩

/-- A second state agreeing with `stFresh` on the sliders only. -/
def stFresh2 : St :=
  ⟨200, 180, 160, 140, 120, 100, 80, some [1, 2, 3, 4, 5, 6], "c", [7], "x"⟩

/-- C7: the renderer is deterministic and depends on no hidden state: the
canvas written by `paintTestPattern` is exactly `render7` of the current
slider curve, so two states agreeing on the sliders yield byte-identical
canvases (whatever the flag, custom slot, selector or previous canvas), and
an immediately repeated invocation reproduces the same canvas. -/
theorem c7_deterministic (s1 s2 : St) (b1 b2 : Bool)
    (hs : sliderCurve s1 = sliderCurve s2) :
    (paintTestPattern b1 s1).canvas = (paintTestPattern b2 s2).canvas ∧
    (paintTestPattern b1 s1).canvas = render7 (sliderCurve s1) 134 240 ∧
    (paintTestPattern b1 (paintTestPattern b2 s1)).canvas =
      (paintTestPattern b2 s1).canvas := by
  have hc : ∀ (b : Bool) (s : St),
      (paintTestPattern b s).canvas = render7 (sliderCurve s) 134 240 := by
    intro b s; cases b <;> rfl
  have hsl : ∀ (b : Bool) (s : St),
      sliderCurve (paintTestPattern b s) = sliderCurve s := by
    intro b s; cases b <;> rfl
  refine ⟨?_, hc b1 s1, ?_⟩
  · rw [hc, hc, hs]
  · rw [hc, hc, hsl]

/-- Witness for C7: `stFresh` and `stFresh2` share sliders only. -/
theorem c7_deterministic_witness :
    sliderCurve stFresh = sliderCurve stFresh2 ∧
    ((paintTestPattern true stFresh).canvas =
        (paintTestPattern false stFresh2).canvas ∧
     (paintTestPattern true stFresh).canvas =
        render7 (sliderCurve stFresh) 134 240 ∧
     (paintTestPattern true (paintTestPattern false stFresh)).canvas =
        (paintTestPattern false stFresh).canvas) :=
  ⟨rfl, c7_deterministic stFresh stFresh2 true false rfl⟩

/-- Refutation of C8 as stated: starting from `stCustomSet`, whose custom
slot is already initialised to [1,2,3,4,5,6], `loadCurve "sRGB-ish"` makes
the active first slider 171, but the following `loadCurve "custom"` restores
the old snapshot (first slider 1), not the curve active immediately before
"custom" was selected. -/
theorem c8_counterexample :
    (runLoadCurve "sRGB-ish" stCustomSet).g1_2 = 171 ∧
    (runLoadCurve "custom" (runLoadCurve "sRGB-ish" stCustomSet)).g1_2 = 1 ∧
    (1 : Nat) ≠ 171 := by
  refine ⟨rfl, rfl, by decide⟩

/-- C8 (amended): if the custom slot has not been initialised yet
(`customCurve = none`), then `loadCurve "sRGB-ish"` followed by
`loadCurve "custom"` with no slider edit in between restores the slider
curve active immediately before "custom" was selected (the slot is lazily
snapshotted from the then-active slider values). -/
theorem c8_roundtrip (s : St) (hcc : s.customCurve = none) :
    ∃ s1 s2, loadCurve "sRGB-ish" s = Except.ok s1 ∧
      loadCurve "custom" s1 = Except.ok s2 ∧
      sliderCurve s2 = sliderCurve s1 := by
  obtain ⟨a, b, c, d, e, f, g, cc, sel, cv, st⟩ := s
  dsimp only at hcc
  subst hcc
  exact ⟨_, _, rfl, rfl, rfl⟩

/-- Witness for the amended C8 at `stFresh`. -/
theorem c8_roundtrip_witness :
    stFresh.customCurve = none ∧
    (∃ s1 s2, loadCurve "sRGB-ish" stFresh = Except.ok s1 ∧
      loadCurve "custom" s1 = Except.ok s2 ∧
      sliderCurve s2 = sliderCurve s1) :=
  ⟨rfl, c8_roundtrip stFresh rfl⟩

/-- C9: neither `loadCurve` (valid or invalid name) nor `saveCustomCurve`
ever writes the seventh slider `GRAY1_128`, so its value is unchanged by any
sequence of such calls. -/
theorem c9_seventh_slider_preserved :
    (∀ (name : String) (s : St), (runLoadCurve name s).g1_128 = s.g1_128) ∧
    (∀ s : St, (saveCustomCurve s).g1_128 = s.g1_128) ∧
    (∀ (ops : List StoreOp) (s : St), (runOps ops s).g1_128 = s.g1_128) := by
  have hok : ∀ (name : String) (s t : St),
      loadCurve name s = Except.ok t → t.g1_128 = s.g1_128 := by
    intro name s t hload
    simp only [loadCurve] at hload
    split_ifs at hload
    · cases hload; rfl
    · cases hload; rfl
    · cases hload; rfl
    · rcases hcc : s.customCurve with _ | l <;> rw [hcc] at hload
      · cases hload; rfl
      · cases hload; rfl
  have hload : ∀ (name : String) (s : St),
      (runLoadCurve name s).g1_128 = s.g1_128 := by
    intro name s
    unfold runLoadCurve
    cases hres : loadCurve name s with
    | ok t => exact hok name s t hres
    | error e => rfl
  have hsave : ∀ s : St, (saveCustomCurve s).g1_128 = s.g1_128 :=
    fun _ => rfl
  refine ⟨hload, hsave, ?_⟩
  intro ops
  induction ops with
  | nil => intro s; rfl
  | cons op rest ih =>
      intro s
      cases op with
      | load name =>
          calc (runOps (StoreOp.load name :: rest) s).g1_128
              = (runLoadCurve name s).g1_128 := ih _
            _ = s.g1_128 := hload name s
      | save =>
          calc (runOps (StoreOp.save :: rest) s).g1_128
              = (saveCustomCurve s).g1_128 := ih _
            _ = s.g1_128 := hsave s

/-- C10: `loadCurve` throws (the `curve[0]` TypeError) exactly for names
outside the four presets, and on a throw the state — sliders, custom slot,
canvas (so no repaint) and all — is unchanged. -/
theorem c10_invalid_name (name : String) (s : St) :
    (loadCurve name s = Except.error () ↔ name ∉ presetNames) ∧
    (name ∉ presetNames → runLoadCurve name s = s) := by
  have herr_of : name ∉ presetNames → loadCurve name s = Except.error () := by
    intro hmem
    have h1 : ¬ name = "sRGB-ish" := fun h => hmem (by rw [h]; decide)
    have h2 : ¬ name = "2010s-LED" := fun h => hmem (by rw [h]; decide)
    have h3 : ¬ name = "2020s-P3" := fun h => hmem (by rw [h]; decide)
    have h4 : ¬ name = "custom" := fun h => hmem (by rw [h]; decide)
    simp only [loadCurve, if_neg h1, if_neg h2, if_neg h3, if_neg h4]
  have hok_of : name ∈ presetNames → ¬ loadCurve name s = Except.error () := by
    intro hmem
    have hcases : name = "sRGB-ish" ∨ name = "2010s-LED" ∨
        name = "2020s-P3" ∨ name = "custom" := by
      simpa [presetNames] using hmem
    rcases hcases with rfl | rfl | rfl | rfl
    · intro herr; exact Except.noConfusion herr
    · intro herr; exact Except.noConfusion herr
    · intro herr; exact Except.noConfusion herr
    · rcases hcc : s.customCurve with _ | l <;>
        · intro herr
          simp only [loadCurve, hcc] at herr
          exact Except.noConfusion herr
  refine ⟨⟨fun herr hmem => hok_of hmem herr, herr_of⟩, fun hmem => ?_⟩
  unfold runLoadCurve
  rw [herr_of hmem]

/-- Witness for C10 at the unknown name "bogus". -/
theorem c10_invalid_name_witness :
    "bogus" ∉ presetNames ∧
    (loadCurve "bogus" stFresh = Except.error () ↔ "bogus" ∉ presetNames) ∧
    runLoadCurve "bogus" stFresh = stFresh :=
  ⟨by decide, (c10_invalid_name "bogus" stFresh).1,
    (c10_invalid_name "bogus" stFresh).2 (by decide)⟩

end TftGammaCal
